import Mathlib

/-!
Shallow embedding of the OmicHack_Utils repository.

The repository consists of standalone plotting scripts.  The claims concern
two of them:

* `src/Plot_volcano.py` — a volcano plot with a draggable-label overlay
  (class `DraggableAnnotations`): significance categorisation of the rows
  (lines 27-34), creation of text labels and connector lines for significant
  rows (lines 70-89), the event handlers `on_press` / `on_release` /
  `on_motion` (lines 102-126) and the anchor store `data_points` (line 129).

* `src/clustering.py` — input validation of the k-means clustering script:
  the cluster-count range check (lines 19-20) and the empty-after-dropna
  check (lines 32-34).

Floating-point numbers of the scripts are embedded as rationals; the value of
the computed column -log10(padj) is carried as an opaque per-row rational
field, since no claim depends on the logarithm itself.  Hit-testing of a
label's bounding box is delegated by the source to matplotlib
(`text.contains(event)`), so the embedding takes the containment test as a
function parameter.
-/

namespace Volcano

/-- The three values of the `Significance` column (Plot_volcano.py lines 32-34). -/
inductive Significance where
  | Upregulated
  | Downregulated
  | NotSignificant
deriving DecidableEq, Repr

/-- `pval_cutoff = 0.05` (line 28); written `mkRat 5 100` so that concrete
evaluations reduce in the kernel. -/
def pval_cutoff : ℚ := mkRat 5 100

/-- `logfc_cutoff = 1.0` (line 29). -/
def logfc_cutoff : ℚ := 1

/-- One row of the dataframe after the `dropna` on line 25: the index label
(gene name), the `log2FoldChange` and `padj` columns, and the computed
column `-log10(P_adj)` (line 22), carried as an opaque rational value. -/
structure Row where
  gene : String
  log2FoldChange : ℚ
  padj : ℚ
  neglog10_padj : ℚ
deriving DecidableEq, Repr

/-- Lines 32-34: every row starts as "Not Significant"; rows matching
`padj < pval_cutoff ∧ log2FoldChange > logfc_cutoff` are overwritten to
"Upregulated" (line 33), then rows matching
`padj < pval_cutoff ∧ log2FoldChange < -logfc_cutoff` are overwritten to
"Downregulated" (line 34).  The last write wins, so the line-34 mask is
tested first here; the two masks are disjoint, so the order is immaterial. -/
def significance (r : Row) : Significance :=
  if r.padj < pval_cutoff ∧ r.log2FoldChange < -logfc_cutoff then .Downregulated
  else if r.padj < pval_cutoff ∧ r.log2FoldChange > logfc_cutoff then .Upregulated
  else .NotSignificant

/-- A matplotlib text element as created on lines 80-81 and mutated by
`set_position` on line 120: its position in data coordinates, its string
content and its immutable style attributes. -/
structure Text where
  position : ℚ × ℚ
  label : String
  ha : String
  color : String
deriving DecidableEq, Repr, Inhabited

/-- A matplotlib line as created on lines 84-86 and mutated by `set_xdata` /
`set_ydata` on lines 123-124.  Every line of this program has exactly two
points, so `xdata` and `ydata` are pairs. -/
structure Line2D where
  xdata : ℚ × ℚ
  ydata : ℚ × ℚ
deriving DecidableEq, Repr, Inhabited

/-- The text label created for a significant row (lines 76-81). -/
def mkText (r : Row) : Text :=
  { position := (r.log2FoldChange, r.neglog10_padj + mkRat 1 2)
    label := r.gene
    ha := if r.log2FoldChange < 0 then "right" else "left"
    color := if significance r = .Upregulated then "darkred" else "darkblue" }

/-- The connector line created for a significant row (lines 84-86): from the
row's data point straight up to the initial label position. -/
def mkLine (r : Row) : Line2D :=
  { xdata := (r.log2FoldChange, r.log2FoldChange)
    ydata := (r.neglog10_padj, r.neglog10_padj + mkRat 1 2) }

/-- Line 75: `row["Significance"] in ["Upregulated", "Downregulated"]`. -/
def isAnnotated (r : Row) : Bool :=
  match significance r with
  | .Upregulated => true
  | .Downregulated => true
  | .NotSignificant => false

/-- The loop of lines 74-89: appends a text label and a connector line for
each significant row, in row order. -/
def buildAnnotations (rows : List Row) : List Text × List Line2D :=
  rows.foldl
    (fun acc r =>
      if isAnnotated r then (acc.1 ++ [mkText r], acc.2 ++ [mkLine r]) else acc)
    ([], [])

/-- Line 129: `data_points = list(zip(data["log2FoldChange"], data["-log10(P_adj)"]))`
— one entry per row of the WHOLE table, significant or not. -/
def dataPoints (rows : List Row) : List (ℚ × ℚ) :=
  rows.map fun r => (r.log2FoldChange, r.neglog10_padj)

/-- A matplotlib mouse event: `xdata` / `ydata` are `None` when the pointer
is outside the axes. -/
structure Event where
  xdata : Option ℚ
  ydata : Option ℚ
deriving DecidableEq, Repr

/-- The mutable state of the overlay (lines 93-100): the text labels, the
connector lines, the anchor store `data_points` and the index `pressed` of
the annotation being dragged (`None` when idle). -/
structure DraggableAnnotations where
  texts : List Text
  connectors : List Line2D
  data_points : List (ℚ × ℚ)
  pressed : Option Nat
deriving DecidableEq, Repr

/-- `__init__` (lines 93-100): stores the three lists and starts with
`pressed = None`; the callback registrations mutate only the external
canvas. -/
def create (texts : List Text) (connectors : List Line2D)
    (data_points : List (ℚ × ℚ)) : DraggableAnnotations :=
  { texts := texts, connectors := connectors, data_points := data_points,
    pressed := none }

/-- The loop of `on_press` (lines 103-107): the index of the first text, in
creation order, whose bounding box contains the event, counting from `i`. -/
def findHit (contains : Text → Event → Bool) (ev : Event) :
    List Text → Nat → Option Nat
  | [], _ => none
  | t :: ts, i => if contains t ev then some i else findHit contains ev ts (i + 1)

/-- `on_press` (lines 102-107): sets `pressed` to the first hit and breaks;
when no text contains the event, `pressed` is left unchanged. -/
def on_press (contains : Text → Event → Bool) (ev : Event)
    (s : DraggableAnnotations) : DraggableAnnotations :=
  match findHit contains ev s.texts 0 with
  | some i => { s with pressed := some i }
  | none => s

/-- `on_release` (lines 109-111): resets `pressed` to `None` and requests a
redraw (the Boolean records whether `fig.canvas.draw()` was called). -/
def on_release (ev : Event) (s : DraggableAnnotations) :
    DraggableAnnotations × Bool :=
  ({ s with pressed := none }, true)

/-- `on_motion` (lines 113-126): when an annotation is pressed and the event
carries valid data coordinates, moves that text to the event position,
rewrites that connector to run from `data_points[pressed]` to the event
position, and requests a redraw; otherwise does nothing.  (In the source an
out-of-range `pressed` would raise `IndexError`; such states are unreachable
from `create`, and the embedding's `getD` defaults are never exercised in
the theorems below.) -/
def on_motion (ev : Event) (s : DraggableAnnotations) :
    DraggableAnnotations × Bool :=
  match s.pressed, ev.xdata, ev.ydata with
  | some i, some ex, some ey =>
    let orig := s.data_points.getD i (0, 0)
    let t := s.texts.getD i default
    ({ s with
        texts := s.texts.set i { t with position := (ex, ey) }
        connectors := s.connectors.set i
          { xdata := (orig.1, ex), ydata := (orig.2, ey) } },
      true)
  | _, _, _ => (s, false)

/-- A pointer event dispatched to the overlay: button press, motion, or
button release. -/
inductive PEvent where
  | down (ev : Event)
  | move (ev : Event)
  | up (ev : Event)
deriving DecidableEq, Repr

/-- Dispatch of one canvas event to the corresponding handler; the Boolean
records whether the handler requested a redraw. -/
def handle (contains : Text → Event → Bool) (s : DraggableAnnotations) :
    PEvent → DraggableAnnotations × Bool
  | .down ev => (on_press contains ev s, false)
  | .move ev => on_motion ev s
  | .up ev => on_release ev s

/-- Sequential dispatch of a list of pointer events. -/
def run (contains : Text → Event → Bool) (es : List PEvent)
    (s : DraggableAnnotations) : DraggableAnnotations :=
  es.foldl (fun st e => (handle contains st e).1) s

lemma run_nil (contains : Text → Event → Bool) (s : DraggableAnnotations) :
    run contains [] s = s := rfl

lemma run_cons (contains : Text → Event → Bool) (e : PEvent) (es : List PEvent)
    (s : DraggableAnnotations) :
    run contains (e :: es) s = run contains es (handle contains s e).1 := rfl

lemma on_press_data_points (contains : Text → Event → Bool) (ev : Event)
    (s : DraggableAnnotations) :
    (on_press contains ev s).data_points = s.data_points := by
  unfold on_press
  cases findHit contains ev s.texts 0 <;> rfl

lemma on_motion_data_points (ev : Event) (s : DraggableAnnotations) :
    ((on_motion ev s).1).data_points = s.data_points := by
  obtain ⟨ts, cs, dp, pr⟩ := s
  obtain ⟨x, y⟩ := ev
  cases pr <;> cases x <;> cases y <;> rfl

lemma handle_data_points (contains : Text → Event → Bool)
    (s : DraggableAnnotations) (e : PEvent) :
    ((handle contains s e).1).data_points = s.data_points := by
  cases e with
  | down ev => exact on_press_data_points contains ev s
  | move ev => exact on_motion_data_points ev s
  | up ev => rfl

/-- Claim C1: the anchor store `data_points` — the original data-point
positions recorded at creation — is invariant across any sequence of
pointer-down, pointer-move and pointer-up events: no event handler of the
overlay ever writes to it. -/
theorem anchors_invariant (contains : Text → Event → Bool) (es : List PEvent)
    (s : DraggableAnnotations) :
    (run contains es s).data_points = s.data_points := by
  induction es generalizing s with
  | nil => rfl
  | cons e es ih =>
    rw [run_cons]
    rw [ih, handle_data_points]

/-- Claim C6: after any pointer-up event the overlay is idle
(`pressed = none`) regardless of its prior state, a redraw is requested, and
a second pointer-up right after the first leaves the state exactly as after
the first. -/
theorem release_resets (s : DraggableAnnotations) (e1 e2 : Event) :
    ((on_release e1 s).1).pressed = none
    ∧ (on_release e1 s).2 = true
    ∧ (on_release e2 ((on_release e1 s).1)).1 = (on_release e1 s).1 :=
  ⟨rfl, rfl, rfl⟩

/-- Claim C7: a pointer-move event whose coordinates are invalid (the
pointer is outside the axes, so `xdata` or `ydata` is `None`) is a no-op:
the state — in particular every label position — is unchanged and no redraw
is requested, in every overlay state, dragging or not. -/
theorem motion_invalid_noop (s : DraggableAnnotations) (ev : Event)
    (h : ev.xdata = none ∨ ev.ydata = none) :
    on_motion ev s = (s, false) := by
  obtain ⟨ts, cs, dp, pr⟩ := s
  obtain ⟨x, y⟩ := ev
  rcases h with h | h <;> simp only at h <;> subst h <;> cases pr <;>
    first
    | rfl
    | (cases x <;> rfl)

/-- Witness for C7 at a concrete dragging state and an event with a missing
x coordinate. -/
theorem motion_invalid_noop_witness :
    on_motion { xdata := none, ydata := some 4 }
        { texts := [default], connectors := [default],
          data_points := [(2, 5)], pressed := some 0 }
      = ({ texts := [default], connectors := [default],
           data_points := [(2, 5)], pressed := some 0 }, false) :=
  motion_invalid_noop _ _ (Or.inl rfl)

lemma handle_fixes_empty (contains : Text → Event → Bool) (e : PEvent) :
    (handle contains (create [] [] []) e).1 = create [] [] [] := by
  cases e with
  | down ev => rfl
  | move ev =>
    obtain ⟨x, y⟩ := ev
    cases x <;> cases y <;> rfl
  | up ev => rfl

/-- Claim C8: creating the overlay from an empty annotation sequence does
not fail — `__init__` performs no emptiness check — and yields an overlay on
which every sequence of pointer events leaves the state unchanged: the
empty-input policy realised by the code is a no-op, and being a pure
function of its input it is the same on every repeated creation. -/
theorem create_empty_noop (contains : Text → Event → Bool) (es : List PEvent) :
    run contains es (create [] [] []) = create [] [] [] := by
  induction es with
  | nil => rfl
  | cons e es ih =>
    rw [run_cons, handle_fixes_empty, ih]

lemma findHit_eq_none (contains : Text → Event → Bool) (ev : Event)
    (ts : List Text) (k : Nat) (h : ∀ t ∈ ts, contains t ev = false) :
    findHit contains ev ts k = none := by
  induction ts generalizing k with
  | nil => rfl
  | cons t ts ih =>
    have ht : contains t ev = false := h t (List.mem_cons_self t ts)
    simp only [findHit, ht, Bool.false_eq_true, if_false]
    exact ih (k + 1) fun u hu => h u (List.mem_cons_of_mem t hu)

lemma findHit_eq_some (contains : Text → Event → Bool) (ev : Event)
    (ts : List Text) (k i : Nat) (hi : i < ts.length)
    (hhit : contains (ts.get ⟨i, hi⟩) ev = true)
    (hfst : ∀ j (hj : j < i), contains (ts.get ⟨j, Nat.lt_trans hj hi⟩) ev = false) :
    findHit contains ev ts k = some (k + i) := by
  induction ts generalizing k i with
  | nil => exact absurd hi (Nat.not_lt_zero i)
  | cons t ts ih =>
    cases i with
    | zero =>
      simp only [List.get] at hhit
      simp [findHit, hhit]
    | succ i =>
      have h0 : contains t ev = false := hfst 0 (Nat.succ_pos i)
      simp only [findHit, h0, Bool.false_eq_true, if_false]
      have hi' : i < ts.length := Nat.lt_of_succ_lt_succ hi
      have := ih (k + 1) i hi' hhit
        (fun j hj => hfst (j + 1) (Nat.succ_lt_succ hj))
      rw [this]
      congr 1
      omega

/-- Claim C3: on pointer-down the overlay scans the labels in creation order
and records the first whose bounding box contains the pointer — the
containment test `contains` is the rendering surface's bbox query — setting
`pressed` to that index; and when no label contains the pointer and the
overlay is idle (`pressed = none`), the state is entirely unchanged, so it
stays idle. -/
theorem press_first_match (contains : Text → Event → Bool) (ev : Event)
    (s : DraggableAnnotations) :
    (∀ (i : Nat) (hi : i < s.texts.length),
      contains (s.texts.get ⟨i, hi⟩) ev = true →
      (∀ (j : Nat) (hj : j < i), contains (s.texts.get ⟨j, Nat.lt_trans hj hi⟩) ev = false) →
      (on_press contains ev s).pressed = some i)
    ∧ ((∀ t ∈ s.texts, contains t ev = false) → s.pressed = none →
      on_press contains ev s = s) := by
  constructor
  · intro i hi hhit hfst
    have hf := findHit_eq_some contains ev s.texts 0 i hi hhit hfst
    rw [Nat.zero_add] at hf
    unfold on_press
    rw [hf]
  · intro hmiss _
    have hf := findHit_eq_none contains ev s.texts 0 hmiss
    unfold on_press
    rw [hf]

/-- A bbox test that reports every label as containing the pointer. -/
def alwaysHit : Text → Event → Bool := fun _ _ => true

/-- Witness for C3: a one-label overlay whose label contains the pointer —
pointer-down records index 0. -/
theorem press_first_match_witness :
    (on_press alwaysHit { xdata := some 2, ydata := some 5 }
        (create [default] [default] [(2, 5)])).pressed = some 0 :=
  (press_first_match alwaysHit { xdata := some 2, ydata := some 5 }
      (create [default] [default] [(2, 5)])).1 0 (Nat.zero_lt_one) rfl
    (fun j hj => absurd hj (Nat.not_lt_zero j))

lemma list_set_getElem?_ne {α : Type} (l : List α) (i j : Nat) (a : α)
    (h : j ≠ i) : (l.set i a)[j]? = l[j]? := by
  induction l generalizing i j with
  | nil => rfl
  | cons b l ih =>
    cases i with
    | zero =>
      cases j with
      | zero => exact absurd rfl h
      | succ j => simp
    | succ i =>
      cases j with
      | zero => simp
      | succ j =>
        have := ih i j (fun he => h (by rw [he]))
        simpa [List.set] using this

/-- A concrete one-annotation overlay in mid-drag, used by witnesses. -/
def wDrag : DraggableAnnotations :=
  { texts := [{ position := (2, mkRat 11 2), label := "geneB", ha := "left",
                color := "darkred" }],
    connectors := [{ xdata := (2, 2), ydata := (5, mkRat 11 2) }],
    data_points := [(2, 5)], pressed := some 0 }

/-- Claim C5: a pointer-move mutates at most the pressed annotation — every
other index keeps its text and its connector — and a pointer-move handled
while the overlay is idle (`pressed = none`) changes nothing at all. -/
theorem motion_frame_effect (s : DraggableAnnotations) (ev : Event) :
    (s.pressed = none → on_motion ev s = (s, false))
    ∧ (∀ (i j : Nat), s.pressed = some i → j ≠ i →
      ((on_motion ev s).1).texts[j]? = s.texts[j]?
      ∧ ((on_motion ev s).1).connectors[j]? = s.connectors[j]?) := by
  obtain ⟨ts, cs, dp, pr⟩ := s
  obtain ⟨x, y⟩ := ev
  constructor
  · intro hp
    simp only at hp
    subst hp
    cases x <;> cases y <;> rfl
  · intro i j hp hne
    simp only at hp
    subst hp
    cases x with
    | none => exact ⟨rfl, rfl⟩
    | some ex =>
      cases y with
      | none => exact ⟨rfl, rfl⟩
      | some ey =>
        exact ⟨list_set_getElem?_ne ts i j _ hne,
               list_set_getElem?_ne cs i j _ hne⟩

/-- Witness for C5: at `wDrag` (pressed index 0) a valid move leaves index
1 — here out of range on both sides, so `none = none` — untouched; the
interesting hypothesis discharged concretely is `pressed = some 0` with
`j = 1 ≠ 0`. -/
theorem motion_frame_effect_witness :
    ((on_motion { xdata := some 7, ydata := some 8 } wDrag).1).texts[1]?
      = wDrag.texts[1]? :=
  ((motion_frame_effect wDrag { xdata := some 7, ydata := some 8 }).2 0 1 rfl
    (by omega)).1

/-- A kept row that is not significant: padj = 0.5, log2FC = 0,
-log10(padj) value 3. -/
def row_ns : Row :=
  { gene := "geneA", log2FoldChange := 0, padj := mkRat 1 2, neglog10_padj := 3 }

/-- A kept row that is upregulated: padj = 0.01, log2FC = 2, -log10(padj)
value 5. -/
def row_up : Row :=
  { gene := "geneB", log2FoldChange := 2, padj := mkRat 1 100, neglog10_padj := 5 }

/-- A two-row table whose first row is not significant: the single
annotation (for `row_up`) has text index 0, while `row_up` is entry 1 of
`data_points`. -/
def bugRows : List Row := [row_ns, row_up]

/-- The overlay the script builds from `bugRows` (lines 74-89 and 129-130). -/
def bugOverlay : DraggableAnnotations :=
  create (buildAnnotations bugRows).1 (buildAnnotations bugRows).2
    (dataPoints bugRows)

/-- A pointer-down on the single label. -/
def evDown : Event := { xdata := some 2, ydata := some (mkRat 11 2) }

/-- A pointer-move to the coordinate (10, 20). -/
def evDrag : Event := { xdata := some 10, ydata := some 20 }

/-- Claim C2 fails on the code: after pressing the only label (annotation 0,
built from `row_up`, whose anchor — the data point it was created from and
its connector's start at creation — is (2, 5)) and dragging to (10, 20), the
connector is rewritten to start at `data_points[0] = (0, 3)`, the data point
of the NON-significant `row_ns`: `on_motion` indexes `data_points` (one
entry per table row, line 129) with the pressed TEXT index (one entry per
significant row), so the start no longer equals the annotation's anchor. -/
theorem connector_start_mismatch :
    ((run alwaysHit [PEvent.down evDown, PEvent.move evDrag]
        bugOverlay).connectors.getD 0 default).xdata.1 = 0
    ∧ ((run alwaysHit [PEvent.down evDown, PEvent.move evDrag]
        bugOverlay).connectors.getD 0 default).ydata.1 = 3
    ∧ (mkLine row_up).xdata.1 = 2 ∧ (mkLine row_up).ydata.1 = 5
    ∧ (row_up.log2FoldChange, row_up.neglog10_padj) = ((2 : ℚ), (5 : ℚ))
    ∧ ((0 : ℚ), (3 : ℚ)) ≠ ((2 : ℚ), (5 : ℚ)) := by
  decide

/-- The result of one pointer-move to (10, 20) after pressing the single
label of `bugOverlay`: the overlay state and the redraw flag. -/
def bugAfterDrag : DraggableAnnotations × Bool :=
  on_motion evDrag (on_press alwaysHit evDown bugOverlay)

/-- Claim C4 fails on the code in its anchor conjunct, at the same input
that settles C2: after pressing the single label of `bugOverlay` (annotation
0, built from `row_up`, anchor (2, 5)) and moving to (10, 20), the label's
position and the connector's end point are the event coordinate and a
redraw is requested — those conjuncts hold — but the connector's start
point is set to `data_points[0] = (0, 3)`, the non-significant `row_ns`'s
data point, so it does NOT remain pinned at the annotation's anchor. -/
theorem motion_start_not_anchor :
    ((bugAfterDrag.1).texts.getD 0 default).position = ((10 : ℚ), (20 : ℚ))
    ∧ ((bugAfterDrag.1).connectors.getD 0 default).xdata.2 = 10
    ∧ ((bugAfterDrag.1).connectors.getD 0 default).ydata.2 = 20
    ∧ bugAfterDrag.2 = true
    ∧ ((bugAfterDrag.1).connectors.getD 0 default).xdata.1 = 0
    ∧ ((bugAfterDrag.1).connectors.getD 0 default).ydata.1 = 3
    ∧ (row_up.log2FoldChange, row_up.neglog10_padj) = ((2 : ℚ), (5 : ℚ))
    ∧ ((0 : ℚ), (3 : ℚ)) ≠ ((2 : ℚ), (5 : ℚ)) := by
  decide

lemma buildAux (rows : List Row) (ts : List Text) (cs : List Line2D) :
    rows.foldl
        (fun acc r =>
          if isAnnotated r then (acc.1 ++ [mkText r], acc.2 ++ [mkLine r])
          else acc)
        (ts, cs)
      = (ts ++ (rows.filter fun r => isAnnotated r).map mkText,
         cs ++ (rows.filter fun r => isAnnotated r).map mkLine) := by
  induction rows generalizing ts cs with
  | nil => simp
  | cons r rows ih =>
    by_cases h : isAnnotated r
    · simp only [List.foldl_cons, h, if_true, List.filter_cons, List.map_cons]
      rw [ih]
      simp
    · simp only [List.foldl_cons, h, if_false, List.filter_cons]
      rw [ih]
      simp [h]

/-- Claim C9: every kept row is assigned exactly one significance category —
"Upregulated" iff `padj < 0.05` and `log2FoldChange > 1`, "Downregulated"
iff `padj < 0.05` and `log2FoldChange < -1`, "Not Significant" otherwise
(`significance` is a function, so the categories are exclusive and
exhaustive by the three iffs) — and the creation loop produces a text label
and a connector exactly for the rows categorised "Upregulated" or
"Downregulated", in row order. -/
theorem significance_and_annotation_rows :
    (∀ r : Row,
      (significance r = .Upregulated ↔
        r.padj < pval_cutoff ∧ r.log2FoldChange > logfc_cutoff)
      ∧ (significance r = .Downregulated ↔
        r.padj < pval_cutoff ∧ r.log2FoldChange < -logfc_cutoff)
      ∧ (significance r = .NotSignificant ↔
        ¬(r.padj < pval_cutoff ∧ r.log2FoldChange > logfc_cutoff)
        ∧ ¬(r.padj < pval_cutoff ∧ r.log2FoldChange < -logfc_cutoff)))
    ∧ (∀ r : Row, isAnnotated r = true ↔
        significance r = .Upregulated ∨ significance r = .Downregulated)
    ∧ (∀ rows : List Row,
        buildAnnotations rows
          = ((rows.filter fun r => isAnnotated r).map mkText,
             (rows.filter fun r => isAnnotated r).map mkLine)) := by
  refine ⟨?_, ?_, ?_⟩
  · intro r
    unfold significance
    split_ifs with h1 h2
    · have hnup : ¬(r.padj < pval_cutoff ∧ r.log2FoldChange > logfc_cutoff) := by
        rintro ⟨-, hgt⟩
        have hlt := h1.2
        unfold logfc_cutoff at hlt hgt
        linarith
      exact ⟨by simp [hnup], by simp [h1], by simp [h1]⟩
    · exact ⟨by simp [h2], by simp [h1], by simp [h2]⟩
    · exact ⟨by simp [h2], by simp [h1], by simp [h1, h2]⟩
  · intro r
    unfold isAnnotated
    cases hsig : significance r <;> simp [hsig]
  · intro rows
    unfold buildAnnotations
    rw [buildAux]
    simp

end Volcano

namespace Clustering

/-- One row of the projection CSV after the rename on lines 25-29 of
src/clustering.py: the three coordinate columns, `none` standing for NaN. -/
structure URow where
  x : Option ℚ
  y : Option ℚ
  z : Option ℚ
deriving DecidableEq, Repr

/-- A row kept by `df.dropna(subset=["x", "y", "z"])` (line 32): all three
coordinates present. -/
def hasCoords (r : URow) : Bool :=
  r.x.isSome && r.y.isSome && r.z.isSome

/-- The message of the range check on line 20. -/
def kCheckMsg : String :=
  "Number of clusters (-k) must be between 2 and 100."

/-- The message of the emptiness check on line 34. -/
def emptyMsg : String :=
  "No valid UMAP coordinates found. Check your projection file."

/-- Lines 19-20 and 32-34 of src/clustering.py: raise `ValueError` unless
`2 <= k <= 100`; otherwise drop the rows with a missing coordinate and raise
`ValueError` if none remain; otherwise hand the kept rows to `KMeans`.  The
range check precedes the `read_csv` on line 23, which is modelled by the
result not depending on `rows` when the check fails. -/
def validateInputs (k : Int) (rows : List URow) : Except String (List URow) :=
  if ¬(2 ≤ k ∧ k ≤ 100) then .error kCheckMsg
  else if (rows.filter hasCoords).isEmpty then .error emptyMsg
  else .ok (rows.filter hasCoords)

/-- Claim C10: the clustering script rejects every cluster count `k < 2` or
`k > 100` with a `ValueError` whose outcome does not depend on the input
rows (the check runs before the CSV is read); with an in-range `k` it
rejects an input whose rows all lack a coordinate (nothing survives the
dropna); and whenever validation succeeds, clustering runs on a non-empty
table of rows that each have all three coordinates. -/
theorem clustering_input_validation :
    (∀ (k : Int) (rows rows' : List URow), (k < 2 ∨ 100 < k) →
      validateInputs k rows = Except.error kCheckMsg
      ∧ validateInputs k rows = validateInputs k rows')
    ∧ (∀ (k : Int) (rows : List URow), 2 ≤ k → k ≤ 100 →
      rows.filter hasCoords = [] →
      validateInputs k rows = Except.error emptyMsg)
    ∧ (∀ (k : Int) (rows kept : List URow),
      validateInputs k rows = Except.ok kept →
      kept ≠ [] ∧ ∀ r ∈ kept, hasCoords r = true) := by
  refine ⟨?_, ?_, ?_⟩
  · intro k rows rows' hk
    have hbad : ¬(2 ≤ k ∧ k ≤ 100) := by omega
    constructor
    · simp [validateInputs, hbad]
    · simp [validateInputs, hbad]
  · intro k rows h2 h100 hempty
    have hok : 2 ≤ k ∧ k ≤ 100 := ⟨h2, h100⟩
    simp [validateInputs, hok, hempty]
  · intro k rows kept hres
    unfold validateInputs at hres
    by_cases hk : 2 ≤ k ∧ k ≤ 100
    · rw [if_neg (not_not_intro hk)] at hres
      by_cases hemp : (rows.filter hasCoords).isEmpty = true
      · rw [if_pos hemp] at hres
        exact Except.noConfusion hres
      · rw [if_neg hemp] at hres
        injection hres with h
        subst h
        refine ⟨?_, ?_⟩
        · intro hnil
          rw [hnil] at hemp
          exact hemp rfl
        · intro r hr
          exact (List.mem_filter.1 hr).2
    · rw [if_pos hk] at hres
      exact Except.noConfusion hres

/-- Witness for C10: k = 1 is rejected with the range-check message, for
any input (here the empty one). -/
theorem clustering_input_validation_witness :
    validateInputs 1 [] = Except.error kCheckMsg :=
  (clustering_input_validation.1 1 [] [] (Or.inl (by omega))).1

end Clustering
